import Mathlib

/-!
Shallow embedding of the proxy-guard watchdog (src/guard.rs together with the
data types of src/lib.rs) of the sysproxy crate, and proofs about it.

The watchdog owns a desired proxy configuration, a tick interval, a shared
lifecycle-state byte (an AtomicU8) and a cancellation signal (tokio Notify).
The platform proxy read/write operations (lib.rs, linux.rs/macos.rs/windows.rs)
are external collaborators: they are modelled as oracle inputs (one response
per call) and as emitted call events, never as executed effects.

Machine integers are modelled as Nat: the state byte is a u8 whose written
values are always 0..3 (proved below), the port is a u16, and Duration is an
abstract number of time units.
-/

namespace SysproxyGuard

/-- Manual proxy configuration: struct Sysproxy (src/lib.rs, lines 23-29).
The port is a u16 in the source. Equality is the derived structural equality
(derive PartialEq, Eq). -/
structure Sysproxy where
  host : String
  bypass : String
  port : Nat
  enable : Bool
  deriving DecidableEq

/-- PAC configuration: struct Autoproxy (src/lib.rs, lines 31-35).
Equality is the derived structural equality. -/
structure Autoproxy where
  url : String
  enable : Bool
  deriving DecidableEq

/-- enum Error (src/lib.rs, lines 119-143); only the platform-independent
variants are modelled. The guard treats every variant identically (log and
skip), so the precise variant never matters. -/
inductive ProxyError
  | ParseStr (s : String)
  | Io
  | NetworkInterface
  | NotSupport
  | RequiresAdminPrivileges
  deriving DecidableEq

/-- enum GuardType (src/guard.rs, lines 15-20): the desired configuration. -/
inductive GuardType
  | None
  | Sysproxy (cfg : Sysproxy)
  | Autoproxy (cfg : Autoproxy)
  deriving DecidableEq

/-- enum GuardState (src/guard.rs, lines 22-29): the lifecycle state.
The repr(u8) discriminants are Running = 0, Stopped = 1, NeedRestart = 2,
Pending = 3. -/
inductive GuardState
  | Running
  | Stopped
  | NeedRestart
  | Pending
  deriving DecidableEq

/-- GuardState::to_u8 (src/guard.rs, lines 43-46): the repr(u8) discriminant. -/
def GuardState.to_u8 : GuardState → Nat
  | GuardState.Running => 0
  | GuardState.Stopped => 1
  | GuardState.NeedRestart => 2
  | GuardState.Pending => 3

/-- GuardState::from_u8 (src/guard.rs, lines 32-41): decode a stored byte;
every value other than 0, 1, 2, 3 falls into the defensive default arm and
decodes to Stopped. -/
def GuardState.from_u8 (value : Nat) : GuardState :=
  match value with
  | 0 => GuardState.Running
  | 1 => GuardState.Stopped
  | 2 => GuardState.NeedRestart
  | 3 => GuardState.Pending
  | _ => GuardState.Stopped

/-- GuardState::is_running (src/guard.rs, lines 48-51). -/
def GuardState.is_running : GuardState → Bool
  | GuardState.Running => true
  | _ => false

/-- GuardState::is_stopped (src/guard.rs, lines 53-56). -/
def GuardState.is_stopped : GuardState → Bool
  | GuardState.Stopped => true
  | _ => false

/-- GuardState::is_need_restart (src/guard.rs, lines 58-61). -/
def GuardState.is_need_restart : GuardState → Bool
  | GuardState.NeedRestart => true
  | _ => false

/-- GuardState::is_pendding (src/guard.rs, lines 63-66; the source spells it
with the double d). -/
def GuardState.is_pendding : GuardState → Bool
  | GuardState.Pending => true
  | _ => false

/-- One call issued to the external collaborator (the fallible platform
proxy interface consumed by the guard, src/lib.rs). -/
inductive CollabCall
  | get_system_proxy
  | set_system_proxy (cfg : Sysproxy)
  | get_auto_proxy
  | set_auto_proxy (cfg : Autoproxy)
  deriving DecidableEq

/-- Oracle for the collaborator's responses during one tick: the result each
platform call would return if invoked this tick. -/
structure CollabResponses where
  getSys : Except ProxyError Sysproxy
  setSys : Except ProxyError Unit
  getAuto : Except ProxyError Autoproxy
  setAuto : Except ProxyError Unit

/-- GuardMonitor::guard_sysproxy_static (src/guard.rs, lines 154-168), as the
list of collaborator calls one tick performs. Sysproxy::get_system_proxy is
always called; if (and only if) it returns Ok with an actual value different
from the desired one, sysproxy.set_system_proxy is called. A failed get skips
the tick; a failed set is only logged — neither result is propagated, which
is why the output never inspects the set response in the oracle. -/
def guard_sysproxy_static (sysproxy : Sysproxy) (c : CollabResponses) : List CollabCall :=
  match c.getSys with
  | Except.ok actually_sysproxy =>
    if actually_sysproxy ≠ sysproxy then
      [CollabCall.get_system_proxy, CollabCall.set_system_proxy sysproxy]
    else
      [CollabCall.get_system_proxy]
  | Except.error _ => [CollabCall.get_system_proxy]

/-- GuardMonitor::guard_autoproxy_static (src/guard.rs, lines 170-184): the
identical pattern for the PAC configuration. -/
def guard_autoproxy_static (autoproxy : Autoproxy) (c : CollabResponses) : List CollabCall :=
  match c.getAuto with
  | Except.ok actually_autoproxy =>
    if actually_autoproxy ≠ autoproxy then
      [CollabCall.get_auto_proxy, CollabCall.set_auto_proxy autoproxy]
    else
      [CollabCall.get_auto_proxy]
  | Except.error _ => [CollabCall.get_auto_proxy]

/-- The match on the captured guard_type inside the tick branch of
run_monitor_loop (src/guard.rs, lines 248-260): GuardType::None performs no
collaborator call at all. -/
def reconcileOnTick (guard_type : GuardType) (c : CollabResponses) : List CollabCall :=
  match guard_type with
  | GuardType.Sysproxy sysproxy => guard_sysproxy_static sysproxy c
  | GuardType.Autoproxy autoproxy => guard_autoproxy_static autoproxy c
  | GuardType.None => []

/-- struct TaskConfig (src/guard.rs, lines 81-85): the immutable snapshot of
configuration and interval handed to the spawned task. -/
structure TaskConfig where
  guard_type : GuardType
  interval : Nat
  deriving DecidableEq

/-- struct GuardMonitor (src/guard.rs, lines 87-92). guard_stat is the
contents of the shared AtomicU8; the Notify handle has no state of its own
(notify_waiters stores no permit), so it is not a field here — raising the
signal is reported in the operations' results instead. -/
structure GuardMonitor where
  guard_type : GuardType
  interval : Nat
  guard_stat : Nat
  deriving DecidableEq

/-- GuardMonitor::new (src/guard.rs, lines 102-119): the state byte starts
as GuardState::Stopped as u8. -/
def GuardMonitor.new (guard_type : GuardType) (interval : Nat) : GuardMonitor :=
  { guard_type := guard_type, interval := interval,
    guard_stat := GuardState.Stopped.to_u8 }

/-- GuardMonitor::get_state (src/guard.rs, lines 121-124): decode the loaded
byte. -/
def GuardMonitor.get_state (m : GuardMonitor) : GuardState :=
  GuardState.from_u8 m.guard_stat

/-- GuardMonitor::set_state (src/guard.rs, lines 126-130): store the
discriminant of the new state. -/
def GuardMonitor.set_state (m : GuardMonitor) (new : GuardState) : GuardMonitor :=
  { m with guard_stat := new.to_u8 }

/-- GuardMonitor::set_interval (src/guard.rs, lines 132-141): if the current
state is not Stopped and the interval actually changes, set NeedRestart; in
every case overwrite the stored interval. -/
def GuardMonitor.set_interval (m : GuardMonitor) (interval : Nat) : GuardMonitor :=
  let m1 :=
    if m.get_state.is_stopped = false ∧ m.interval ≠ interval then
      m.set_state GuardState.NeedRestart
    else m
  { m1 with interval := interval }

/-- GuardMonitor::set_guard_type (src/guard.rs, lines 143-152): the same
change-detection pattern for the configuration. -/
def GuardMonitor.set_guard_type (m : GuardMonitor) (guard_type : GuardType) : GuardMonitor :=
  let m1 :=
    if m.get_state.is_stopped = false ∧ m.guard_type ≠ guard_type then
      m.set_state GuardState.NeedRestart
    else m
  { m1 with guard_type := guard_type }

/-- GuardMonitor::stop (src/guard.rs, lines 272-287). Returns the monitor
after the call together with whether notify_waiters was invoked (the
cancellation signal raised). If the decoded state is Stopped or Pending the
call returns early and does nothing; otherwise it stores Stopped and raises
the signal, without waiting for the task. -/
def GuardMonitor.stop (m : GuardMonitor) : GuardMonitor × Bool :=
  let state := m.get_state
  if state.is_stopped || state.is_pendding then (m, false)
  else (m.set_state GuardState.Stopped, true)

/-- AtomicU8::compare_exchange specialised to the use in start (src/guard.rs,
lines 202-214): given the value the cell holds at the instant of the
operation, atomically replace it by new when it equals expected; the Bool
reports success. -/
def compare_exchange (cur expected new : Nat) : Nat × Bool :=
  if cur = expected then (new, true) else (cur, false)

/-- GuardMonitor::start (src/guard.rs, lines 186-227), sequential semantics
(no interference between its reads; interleavings are covered by the Step
system below). Returns the monitor after the call and the TaskConfig snapshot
handed to tokio::spawn, if a task was spawned. Running/Pending return early;
NeedRestart first runs stop() (and sleeps — time is not modelled); then the
compare-exchange Stopped→Pending gates the spawn, and a failed exchange
changes nothing and spawns nothing. -/
def GuardMonitor.start (m : GuardMonitor) : GuardMonitor × Option TaskConfig :=
  let state := m.get_state
  if state.is_running || state.is_pendding then (m, none)
  else
    let m1 := if m.get_state.is_need_restart then (m.stop).1 else m
    let cas := compare_exchange m1.guard_stat GuardState.Stopped.to_u8 GuardState.Pending.to_u8
    if cas.2 then
      ({ m1 with guard_stat := cas.1 },
       some { guard_type := m1.guard_type, interval := m1.interval })
    else
      ({ m1 with guard_stat := cas.1 }, none)

/-- impl Drop for GuardMonitor (src/guard.rs, lines 94-99): dropping the
monitor runs self.stop(). -/
def GuardMonitor.dropGuard (m : GuardMonitor) : GuardMonitor × Bool :=
  m.stop

/-- Which branch of the tokio::select! in run_monitor_loop (src/guard.rs,
lines 246-266) completes first in one iteration: the interval tick or the
Notify wakeup. -/
inductive LoopEvent
  | tick
  | notified
  deriving DecidableEq

/-- What one loop iteration observes: the value the shared byte holds when
the iteration loads it at the top of the loop, the select branch that
completes, and the collaborator's responses should a reconciliation run. -/
structure LoopObs where
  stat : Nat
  ev : LoopEvent
  collab : CollabResponses

/-- Result of one iteration of the loop body (src/guard.rs, lines 236-267):
either the loop breaks, or it continues after emitting the tick's
collaborator calls. -/
inductive IterResult
  | exited
  | continued (calls : List CollabCall)
  deriving DecidableEq

/-- One iteration of the loop in run_monitor_loop (src/guard.rs, lines
236-267): load and decode the state; break on Stopped (line 238) or
NeedRestart (line 241); otherwise the select either runs the reconciliation
for the captured guard_type (tick branch) or breaks (notified branch). -/
def loopIter (guard_type : GuardType) (o : LoopObs) : IterResult :=
  let state := GuardState.from_u8 o.stat
  if state.is_stopped then IterResult.exited
  else if state.is_need_restart then IterResult.exited
  else
    match o.ev with
    | LoopEvent.tick => IterResult.continued (reconcileOnTick guard_type o.collab)
    | LoopEvent.notified => IterResult.exited

/-- An observable action of the background task: a store to the shared state
byte, or a collaborator call. -/
inductive TaskAct
  | store (v : Nat)
  | call (c : CollabCall)
  deriving DecidableEq

/-- The trace of the loop of run_monitor_loop over a sequence of per-iteration
observations: when an iteration exits, the task performs the single
unconditional store of Stopped (src/guard.rs, line 269) and ends; an
exhausted observation list means the task is still looping. -/
def loopTrace (guard_type : GuardType) : List LoopObs → List TaskAct
  | [] => []
  | o :: rest =>
    match loopIter guard_type o with
    | IterResult.exited => [TaskAct.store GuardState.Stopped.to_u8]
    | IterResult.continued calls =>
      calls.map TaskAct.call ++ loopTrace guard_type rest

/-- GuardMonitor::run_monitor_loop (src/guard.rs, lines 229-270) as a task
trace: the task's first action on the shared state is the store of Running
(line 234, the Pending→Running transition), before the first loop iteration;
then the loop runs. (The tokio interval is created before that store but
performs no observable action.) -/
def run_monitor_loop (config : TaskConfig) (obs : List LoopObs) : List TaskAct :=
  TaskAct.store GuardState.Running.to_u8 :: loopTrace config.guard_type obs

/-- Concurrent view of one GuardMonitor and its background tasks: the shared
state byte plus the live tasks of the watchdog, counted by control point in
run_monitor_loop. A task is live from the tokio::spawn in start (src/guard.rs,
line 222) until it returns after the final store (line 269). -/
structure Sys where
  stat : Nat
  nInit : Nat
  nLoop : Nat
  nSel : Nat
  deriving DecidableEq

/-- Number of live background tasks of the watchdog. -/
def Sys.live (s : Sys) : Nat := s.nInit + s.nLoop + s.nSel

/-- The state right after GuardMonitor::new: byte Stopped, no task. -/
def sysInit : Sys :=
  { stat := GuardState.Stopped.to_u8, nInit := 0, nLoop := 0, nSel := 0 }

/-- Atomic transitions of the concurrent system. Every store the source ever
performs on the shared byte appears here, guarded by the check under which
the source performs it (check and store are adjacent in the source; they are
linearised into one step). Wakeups of a waiting task are allowed at any time,
over-approximating notify_waiters (src/guard.rs, line 283), which only ever
causes an extra break followed by the store of Stopped. -/
inductive Step : Sys → Sys → Prop
  /-- stop() past its early return (src/guard.rs, lines 276-283): the decoded
  state is neither Stopped nor Pending, so set_state(Stopped) runs (and the
  signal is raised). Also covers the stop() issued inside start's NeedRestart
  path (line 198). -/
  | stopStore (s : Sys)
      (h : (GuardState.from_u8 s.stat).is_stopped = false ∧
           (GuardState.from_u8 s.stat).is_pendding = false) :
      Step s { s with stat := GuardState.Stopped.to_u8 }
  /-- set_interval / set_guard_type with a changed value while the decoded
  state is not Stopped (src/guard.rs, lines 135-139 and 146-150):
  set_state(NeedRestart). -/
  | setterRestart (s : Sys)
      (h : (GuardState.from_u8 s.stat).is_stopped = false) :
      Step s { s with stat := GuardState.NeedRestart.to_u8 }
  /-- start()'s successful compare_exchange Stopped→Pending followed by
  tokio::spawn (src/guard.rs, lines 202-224): only enabled when the byte is
  exactly Stopped as u8; a failed exchange changes nothing and is omitted. -/
  | casOk (s : Sys) (h : s.stat = GuardState.Stopped.to_u8) :
      Step s { s with stat := GuardState.Pending.to_u8, nInit := s.nInit + 1 }
  /-- A spawned task's first action: the store of Running (src/guard.rs,
  line 234); the task proceeds to the top of its loop. -/
  | taskRun (s : Sys) (h : 0 < s.nInit) :
      Step s { s with stat := GuardState.Running.to_u8,
                      nInit := s.nInit - 1, nLoop := s.nLoop + 1 }
  /-- A task at the top of its loop loads a byte decoding to Stopped or
  NeedRestart: it breaks (src/guard.rs, lines 237-244), performs the final
  store of Stopped (line 269) and ends. -/
  | taskExitCheck (s : Sys) (h : 0 < s.nLoop)
      (hs : (GuardState.from_u8 s.stat).is_stopped = true ∨
            (GuardState.from_u8 s.stat).is_need_restart = true) :
      Step s { s with stat := GuardState.Stopped.to_u8, nLoop := s.nLoop - 1 }
  /-- A task at the top of its loop loads a byte decoding to neither Stopped
  nor NeedRestart: it enters the select (src/guard.rs, line 246). -/
  | taskEnterSel (s : Sys) (h : 0 < s.nLoop)
      (hs : (GuardState.from_u8 s.stat).is_stopped = false ∧
            (GuardState.from_u8 s.stat).is_need_restart = false) :
      Step s { s with nLoop := s.nLoop - 1, nSel := s.nSel + 1 }
  /-- The tick branch of the select completes (src/guard.rs, lines 247-261):
  the reconciliation runs (collaborator calls only, no store to the shared
  byte) and the task returns to the top of its loop. -/
  | taskTick (s : Sys) (h : 0 < s.nSel) :
      Step s { s with nSel := s.nSel - 1, nLoop := s.nLoop + 1 }
  /-- The notified branch of the select completes (src/guard.rs, lines
  262-265): the task breaks, performs the final store of Stopped (line 269)
  and ends. -/
  | taskNotified (s : Sys) (h : 0 < s.nSel) :
      Step s { s with stat := GuardState.Stopped.to_u8, nSel := s.nSel - 1 }

/-- States the system can reach from a freshly constructed GuardMonitor. -/
inductive Reachable : Sys → Prop
  | init : Reachable sysInit
  | step {s t : Sys} : Reachable s → Step s t → Reachable t

/-- Sample manual configuration (from the repository's own tests). -/
def sampleSysproxy : Sysproxy :=
  { host := "127.0.0.1", bypass := "localhost", port := 8080, enable := true }

/-- Sample PAC configuration (from the repository's own tests). -/
def sampleAutoproxy : Autoproxy :=
  { url := "http://example.com/proxy.pac", enable := true }

/-- Collaborator oracle whose reads fail (e.g. an unsupported platform). -/
def collabGetFail : CollabResponses :=
  { getSys := Except.error ProxyError.NotSupport, setSys := Except.ok (),
    getAuto := Except.error ProxyError.NotSupport, setAuto := Except.ok () }

/-- Collaborator oracle whose reads return exactly the sample targets. -/
def collabMatch : CollabResponses :=
  { getSys := Except.ok sampleSysproxy, setSys := Except.ok (),
    getAuto := Except.ok sampleAutoproxy, setAuto := Except.ok () }

/-- Collaborator oracle whose reads observe configurations that differ from
the sample targets (drift). -/
def collabDrift : CollabResponses :=
  { getSys := Except.ok { host := "0.0.0.0", bypass := "", port := 9090, enable := false },
    setSys := Except.ok (),
    getAuto := Except.ok { url := "http://other.example.com/x.pac", enable := false },
    setAuto := Except.ok () }

/-- Elapsed time, in the units of the period, between the creation of the
timer in run_monitor_loop (src/guard.rs, line 231) and the completion of its
n-th tick. tokio::time::interval(period) is documented as
interval_at(Instant::now(), period): the first tick (n = 0) completes
immediately at creation, and each later tick one period after the previous
one, so the n-th completes n periods after task start. -/
def intervalTickElapsed (period n : Nat) : Nat := n * period

/-! ## Helper lemmas -/

theorem is_stopped_iff (g : GuardState) : g.is_stopped = true ↔ g = GuardState.Stopped := by
  cases g <;> simp [GuardState.is_stopped]

theorem is_stopped_false_iff (g : GuardState) : g.is_stopped = false ↔ g ≠ GuardState.Stopped := by
  cases g <;> simp [GuardState.is_stopped]

theorem is_pendding_iff (g : GuardState) : g.is_pendding = true ↔ g = GuardState.Pending := by
  cases g <;> simp [GuardState.is_pendding]

theorem is_running_iff (g : GuardState) : g.is_running = true ↔ g = GuardState.Running := by
  cases g <;> simp [GuardState.is_running]

theorem is_need_restart_iff (g : GuardState) :
    g.is_need_restart = true ↔ g = GuardState.NeedRestart := by
  cases g <;> simp [GuardState.is_need_restart]

theorem from_u8_default (v : Nat) (h : 4 ≤ v) :
    GuardState.from_u8 v = GuardState.Stopped := by
  obtain ⟨k, rfl⟩ : ∃ k, v = k + 4 := ⟨v - 4, by omega⟩
  rfl

theorem from_u8_to_u8 (g : GuardState) : GuardState.from_u8 g.to_u8 = g := by
  cases g <;> rfl

theorem stop_preserves_fields (m : GuardMonitor) :
    (m.stop).1.guard_type = m.guard_type ∧ (m.stop).1.interval = m.interval := by
  by_cases hc : (m.get_state.is_stopped || m.get_state.is_pendding) = true <;>
    simp [GuardMonitor.stop, hc, GuardMonitor.set_state]

theorem set_sys_mem_reconcile (gt : GuardType) (c : CollabResponses) (p : Sysproxy) :
    CollabCall.set_system_proxy p ∈ reconcileOnTick gt c → gt = GuardType.Sysproxy p := by
  cases gt with
  | None => intro h; simp [reconcileOnTick] at h
  | Sysproxy s =>
    intro h
    simp only [reconcileOnTick, guard_sysproxy_static] at h
    cases hg : c.getSys with
    | ok actual =>
      rw [hg] at h
      by_cases hne : actual ≠ s
      · simp [hne] at h
        simp [h]
      · simp [hne] at h
    | error e =>
      rw [hg] at h
      simp at h
  | Autoproxy b =>
    intro h
    simp only [reconcileOnTick, guard_autoproxy_static] at h
    cases hg : c.getAuto with
    | ok actual =>
      rw [hg] at h
      by_cases hne : actual ≠ b
      · simp [hne] at h
      · simp [hne] at h
    | error e =>
      rw [hg] at h
      simp at h

theorem set_auto_mem_reconcile (gt : GuardType) (c : CollabResponses) (a : Autoproxy) :
    CollabCall.set_auto_proxy a ∈ reconcileOnTick gt c → gt = GuardType.Autoproxy a := by
  cases gt with
  | None => intro h; simp [reconcileOnTick] at h
  | Sysproxy s =>
    intro h
    simp only [reconcileOnTick, guard_sysproxy_static] at h
    cases hg : c.getSys with
    | ok actual =>
      rw [hg] at h
      by_cases hne : actual ≠ s
      · simp [hne] at h
      · simp [hne] at h
    | error e =>
      rw [hg] at h
      simp at h
  | Autoproxy b =>
    intro h
    simp only [reconcileOnTick, guard_autoproxy_static] at h
    cases hg : c.getAuto with
    | ok actual =>
      rw [hg] at h
      by_cases hne : actual ≠ b
      · simp [hne] at h
        simp [h]
      · simp [hne] at h
    | error e =>
      rw [hg] at h
      simp at h

theorem loopIter_continued_eq (gt : GuardType) (o : LoopObs) (calls : List CollabCall)
    (h : loopIter gt o = IterResult.continued calls) :
    calls = reconcileOnTick gt o.collab := by
  obtain ⟨ostat, oev, ocollab⟩ := o
  cases oev <;> simp only [loopIter] at h
  · split at h
    · cases h
    · split at h
      · cases h
      · injection h with h2
        exact h2.symm
  · split at h
    · cases h
    · split at h
      · cases h
      · cases h

theorem loopTrace_store_mem (gt : GuardType) :
    ∀ (obs : List LoopObs) (v : Nat),
      TaskAct.store v ∈ loopTrace gt obs → v = GuardState.Stopped.to_u8 := by
  intro obs
  induction obs with
  | nil =>
    intro v hv
    simp [loopTrace] at hv
  | cons o rest ih =>
    intro v hv
    simp only [loopTrace] at hv
    cases hcase : loopIter gt o with
    | exited =>
      rw [hcase] at hv
      simp at hv
      exact hv
    | continued calls =>
      rw [hcase] at hv
      simp only [List.mem_append, List.mem_map] at hv
      rcases hv with ⟨c, hc, heq⟩ | hv
      · cases heq
      · exact ih v hv

theorem loopTrace_set_sys (gt : GuardType) :
    ∀ (obs : List LoopObs) (p : Sysproxy),
      TaskAct.call (CollabCall.set_system_proxy p) ∈ loopTrace gt obs →
        gt = GuardType.Sysproxy p := by
  intro obs
  induction obs with
  | nil => intro p h; simp [loopTrace] at h
  | cons o rest ih =>
    intro p h
    simp only [loopTrace] at h
    cases hcase : loopIter gt o with
    | exited =>
      rw [hcase] at h
      simp at h
    | continued calls =>
      rw [hcase] at h
      simp only [List.mem_append, List.mem_map] at h
      rcases h with ⟨c, hc, heq⟩ | h
      · injection heq with h2
        subst h2
        exact set_sys_mem_reconcile gt o.collab p
          (loopIter_continued_eq gt o calls hcase ▸ hc)
      · exact ih p h

theorem loopTrace_set_auto (gt : GuardType) :
    ∀ (obs : List LoopObs) (a : Autoproxy),
      TaskAct.call (CollabCall.set_auto_proxy a) ∈ loopTrace gt obs →
        gt = GuardType.Autoproxy a := by
  intro obs
  induction obs with
  | nil => intro a h; simp [loopTrace] at h
  | cons o rest ih =>
    intro a h
    simp only [loopTrace] at h
    cases hcase : loopIter gt o with
    | exited =>
      rw [hcase] at h
      simp at h
    | continued calls =>
      rw [hcase] at h
      simp only [List.mem_append, List.mem_map] at h
      rcases h with ⟨c, hc, heq⟩ | h
      · injection heq with h2
        subst h2
        exact set_auto_mem_reconcile gt o.collab a
          (loopIter_continued_eq gt o calls hcase ▸ hc)
      · exact ih a h

/-! ## Claim theorems -/

/-- C9: the decoder is total and defensive: every byte outside the four
defined encodings 0..3 decodes to Stopped (not an error), and get_state
always yields one of the four defined lifecycle values for every stored
byte. -/
theorem c9_decoder_total (v : Nat) (m : GuardMonitor) :
    (4 ≤ v → GuardState.from_u8 v = GuardState.Stopped)
    ∧ (m.get_state = GuardState.Running ∨ m.get_state = GuardState.Stopped ∨
       m.get_state = GuardState.NeedRestart ∨ m.get_state = GuardState.Pending) := by
  refine ⟨from_u8_default v, ?_⟩
  cases h : m.get_state
  · exact Or.inl rfl
  · exact Or.inr (Or.inl rfl)
  · exact Or.inr (Or.inr (Or.inl rfl))
  · exact Or.inr (Or.inr (Or.inr rfl))

/-- Witness for C9 at the concrete out-of-range byte 99 (the byte used by
the repository's own test) on a freshly constructed monitor. -/
theorem c9_decoder_total_witness :
    GuardState.from_u8 99 = GuardState.Stopped
    ∧ (GuardMonitor.new GuardType.None 1).get_state = GuardState.Stopped := by
  constructor
  · exact (c9_decoder_total 99 (GuardMonitor.new GuardType.None 1)).1 (by decide)
  · rfl

/-- C10: in every reachable state of the concurrent system the shared byte
holds one of the four defined encodings (it is < 4, so the decoder's
defensive default arm is never exercised and decoding round-trips exactly),
and every value any set_state-style write can store, being the discriminant
of a GuardState, is < 4. -/
theorem c10_state_byte_invariant (s : Sys) (h : Reachable s) :
    (s.stat < 4 ∧ (GuardState.from_u8 s.stat).to_u8 = s.stat)
    ∧ (∀ g : GuardState, g.to_u8 < 4) := by
  constructor
  · induction h with
    | init => exact ⟨by decide, by decide⟩
    | step hr hst ih =>
      cases hst with
      | stopStore h => exact ⟨show GuardState.Stopped.to_u8 < 4 by decide, rfl⟩
      | setterRestart h => exact ⟨show GuardState.NeedRestart.to_u8 < 4 by decide, rfl⟩
      | casOk h => exact ⟨show GuardState.Pending.to_u8 < 4 by decide, rfl⟩
      | taskRun h => exact ⟨show GuardState.Running.to_u8 < 4 by decide, rfl⟩
      | taskExitCheck h hs => exact ⟨show GuardState.Stopped.to_u8 < 4 by decide, rfl⟩
      | taskEnterSel h hs => exact ih
      | taskTick h => exact ih
      | taskNotified h => exact ⟨show GuardState.Stopped.to_u8 < 4 by decide, rfl⟩
  · intro g
    cases g <;> decide

/-- Witness for C10 at the initial state of a freshly constructed monitor. -/
theorem c10_state_byte_invariant_witness :
    (sysInit.stat < 4 ∧ (GuardState.from_u8 sysInit.stat).to_u8 = sysInit.stat)
    ∧ (∀ g : GuardState, g.to_u8 < 4) :=
  c10_state_byte_invariant sysInit Reachable.init

/-- C1 counterexample: with the concrete interval 50, the first firing of
the periodic timer created at task start (tokio::time::interval, src/guard.rs
line 231) completes at elapsed time 0: the configured interval has not
elapsed, so the first reconciliation-triggering tick happens immediately at
task start, refuting the claim that it happens only after one full
interval. -/
theorem c1_counterexample :
    intervalTickElapsed 50 0 = 0 ∧ ¬ 50 ≤ intervalTickElapsed 50 0 := by
  decide

/-- C1 amended: the first firing of the periodic timer completes immediately
at task start (elapsed time 0), and each subsequent firing completes one
full interval after the previous one; the immediate first tick already
triggers a reconciliation, since a tick observed while the state decodes to
Running continues the loop with the reconciliation calls. -/
theorem c1_first_tick_immediate (d n stat : Nat) (gt : GuardType) (c : CollabResponses) :
    intervalTickElapsed d 0 = 0
    ∧ intervalTickElapsed d (n + 1) = intervalTickElapsed d n + d
    ∧ (GuardState.from_u8 stat = GuardState.Running →
        loopIter gt { stat := stat, ev := LoopEvent.tick, collab := c }
          = IterResult.continued (reconcileOnTick gt c)) := by
  refine ⟨by simp [intervalTickElapsed], by simp [intervalTickElapsed, Nat.succ_mul], ?_⟩
  intro h
  simp [loopIter, h, GuardState.is_stopped, GuardState.is_need_restart]

/-- Witness for C1 (amended) at interval 50, tick 0, byte 0 (Running),
configuration None. -/
theorem c1_first_tick_immediate_witness :
    loopIter GuardType.None { stat := 0, ev := LoopEvent.tick, collab := collabGetFail }
      = IterResult.continued (reconcileOnTick GuardType.None collabGetFail) :=
  (c1_first_tick_immediate 50 0 0 GuardType.None collabGetFail).2.2 rfl

/-- C4: stop() while the decoded state is Stopped or Pending changes nothing
and raises no signal (a stop during Pending is silently ignored); while
Running or NeedRestart it sets the state to Stopped and raises the
cancellation signal before returning, leaving the other fields untouched and
without waiting for the background task. -/
theorem c4_stop_cases (m : GuardMonitor) :
    ((m.get_state = GuardState.Stopped ∨ m.get_state = GuardState.Pending) →
      m.stop = (m, false))
    ∧ ((m.get_state = GuardState.Running ∨ m.get_state = GuardState.NeedRestart) →
      (m.stop).1.get_state = GuardState.Stopped ∧ (m.stop).2 = true
      ∧ (m.stop).1.guard_type = m.guard_type ∧ (m.stop).1.interval = m.interval) := by
  constructor
  · rintro (h | h) <;>
    · have h2 : GuardState.from_u8 m.guard_stat = _ := h
      simp [GuardMonitor.stop, GuardMonitor.get_state, h2,
        GuardState.is_stopped, GuardState.is_pendding]
  · rintro (h | h) <;>
    · have h2 : GuardState.from_u8 m.guard_stat = _ := h
      simp [GuardMonitor.stop, GuardMonitor.set_state, GuardMonitor.get_state, h2,
        GuardState.is_stopped, GuardState.is_pendding, from_u8_to_u8]

/-- Witness for C4: a running monitor (byte 0) is stopped and signalled; a
pending monitor (byte 3) is left untouched with no signal. -/
theorem c4_stop_cases_witness :
    (GuardMonitor.mk GuardType.None 5 0).stop.1.get_state = GuardState.Stopped
    ∧ (GuardMonitor.mk GuardType.None 5 0).stop.2 = true
    ∧ (GuardMonitor.mk GuardType.None 5 3).stop = (GuardMonitor.mk GuardType.None 5 3, false) := by
  refine ⟨?_, ?_, ?_⟩
  · exact ((c4_stop_cases (GuardMonitor.mk GuardType.None 5 0)).2 (Or.inl rfl)).1
  · exact ((c4_stop_cases (GuardMonitor.mk GuardType.None 5 0)).2 (Or.inl rfl)).2.1
  · exact (c4_stop_cases (GuardMonitor.mk GuardType.None 5 3)).1 (Or.inr rfl)

/-- C6: set_interval and set_guard_type always overwrite the stored field;
they transition the state to NeedRestart exactly when the current decoded
state is not Stopped and the new value differs from the stored one; when the
value is unchanged or the state is Stopped, the state byte is untouched. -/
theorem c6_setters (m : GuardMonitor) (d : Nat) (g : GuardType) :
    ((m.set_interval d).interval = d ∧ (m.set_guard_type g).guard_type = g)
    ∧ (m.get_state ≠ GuardState.Stopped → m.interval ≠ d →
        (m.set_interval d).get_state = GuardState.NeedRestart)
    ∧ (m.get_state = GuardState.Stopped ∨ m.interval = d →
        (m.set_interval d).guard_stat = m.guard_stat)
    ∧ (m.get_state ≠ GuardState.Stopped → m.guard_type ≠ g →
        (m.set_guard_type g).get_state = GuardState.NeedRestart)
    ∧ (m.get_state = GuardState.Stopped ∨ m.guard_type = g →
        (m.set_guard_type g).guard_stat = m.guard_stat) := by
  refine ⟨⟨rfl, rfl⟩, ?_, ?_, ?_, ?_⟩
  · intro h1 h2
    have hb : (GuardState.from_u8 m.guard_stat).is_stopped = false :=
      (is_stopped_false_iff _).mpr h1
    simp [GuardMonitor.set_interval, GuardMonitor.set_state, GuardMonitor.get_state,
      hb, h2, from_u8_to_u8]
  · rintro (h | h)
    · simp [GuardMonitor.set_interval, h, GuardState.is_stopped]
    · simp [GuardMonitor.set_interval, h]
  · intro h1 h2
    have hb : (GuardState.from_u8 m.guard_stat).is_stopped = false :=
      (is_stopped_false_iff _).mpr h1
    simp [GuardMonitor.set_guard_type, GuardMonitor.set_state, GuardMonitor.get_state,
      hb, h2, from_u8_to_u8]
  · rintro (h | h)
    · simp [GuardMonitor.set_guard_type, h, GuardState.is_stopped]
    · simp [GuardMonitor.set_guard_type, h]

/-- Witness for C6: on a running monitor (byte 0) with interval 3, changing
the interval to 5 overwrites it and sets NeedRestart; setting it to 3 again
leaves the byte untouched; on a stopped monitor nothing transitions. -/
theorem c6_setters_witness :
    ((GuardMonitor.mk GuardType.None 3 0).set_interval 5).interval = 5
    ∧ ((GuardMonitor.mk GuardType.None 3 0).set_interval 5).get_state = GuardState.NeedRestart
    ∧ ((GuardMonitor.mk GuardType.None 3 0).set_interval 3).guard_stat = 0
    ∧ ((GuardMonitor.mk GuardType.None 3 1).set_interval 5).guard_stat = 1 := by
  refine ⟨?_, ?_, ?_, ?_⟩
  · exact (c6_setters (GuardMonitor.mk GuardType.None 3 0) 5 GuardType.None).1.1
  · exact (c6_setters (GuardMonitor.mk GuardType.None 3 0) 5 GuardType.None).2.1
      (by decide) (by decide)
  · exact (c6_setters (GuardMonitor.mk GuardType.None 3 0) 3 GuardType.None).2.2.1
      (Or.inr rfl)
  · exact (c6_setters (GuardMonitor.mk GuardType.None 3 1) 5 GuardType.None).2.2.1
      (Or.inl rfl)

/-- C2: one tick of the background loop: with configuration None the
collaborator is never invoked; with a manual (resp. PAC) configuration a
corrective set call is issued exactly when the get call succeeds with an
actual value different from the captured one — an equal actual or a failed
get produces only the get call; the set call's own result is ignored (the
tick's calls depend only on the get response), and a tick — whatever the
collaborator returned — continues the loop rather than exiting: no error is
propagated. -/
theorem c2_tick_reconciliation (c c' : CollabResponses) (s : Sysproxy) (a : Autoproxy)
    (stat : Nat) (gt : GuardType) :
    reconcileOnTick GuardType.None c = []
    ∧ (∀ actual, c.getSys = Except.ok actual → actual ≠ s →
        guard_sysproxy_static s c
          = [CollabCall.get_system_proxy, CollabCall.set_system_proxy s])
    ∧ (c.getSys = Except.ok s → guard_sysproxy_static s c = [CollabCall.get_system_proxy])
    ∧ (∀ e, c.getSys = Except.error e →
        guard_sysproxy_static s c = [CollabCall.get_system_proxy])
    ∧ (c.getSys = c'.getSys → guard_sysproxy_static s c = guard_sysproxy_static s c')
    ∧ (∀ actual, c.getAuto = Except.ok actual → actual ≠ a →
        guard_autoproxy_static a c
          = [CollabCall.get_auto_proxy, CollabCall.set_auto_proxy a])
    ∧ (c.getAuto = Except.ok a → guard_autoproxy_static a c = [CollabCall.get_auto_proxy])
    ∧ (∀ e, c.getAuto = Except.error e →
        guard_autoproxy_static a c = [CollabCall.get_auto_proxy])
    ∧ (c.getAuto = c'.getAuto → guard_autoproxy_static a c = guard_autoproxy_static a c')
    ∧ ((GuardState.from_u8 stat).is_stopped = false →
       (GuardState.from_u8 stat).is_need_restart = false →
        loopIter gt { stat := stat, ev := LoopEvent.tick, collab := c }
          = IterResult.continued (reconcileOnTick gt c)) := by
  refine ⟨rfl, ?_, ?_, ?_, ?_, ?_, ?_, ?_, ?_, ?_⟩
  · intro actual hget hne
    simp [guard_sysproxy_static, hget, hne]
  · intro hget
    simp [guard_sysproxy_static, hget]
  · intro e hget
    simp [guard_sysproxy_static, hget]
  · intro hg
    unfold guard_sysproxy_static
    rw [hg]
  · intro actual hget hne
    simp [guard_autoproxy_static, hget, hne]
  · intro hget
    simp [guard_autoproxy_static, hget]
  · intro e hget
    simp [guard_autoproxy_static, hget]
  · intro hg
    unfold guard_autoproxy_static
    rw [hg]
  · intro h1 h2
    simp [loopIter, h1, h2]

/-- Witness for C2 at concrete inputs: a failed read yields only the get
call, a matching read yields only the get call (no corrective write — no
drift, no set), and a concrete tick in Running state continues the loop. -/
theorem c2_tick_reconciliation_witness :
    guard_sysproxy_static sampleSysproxy collabGetFail = [CollabCall.get_system_proxy]
    ∧ guard_sysproxy_static sampleSysproxy collabMatch = [CollabCall.get_system_proxy]
    ∧ guard_autoproxy_static sampleAutoproxy collabMatch = [CollabCall.get_auto_proxy]
    ∧ loopIter GuardType.None { stat := 0, ev := LoopEvent.tick, collab := collabGetFail }
        = IterResult.continued [] := by
  refine ⟨?_, ?_, ?_, ?_⟩
  · exact (c2_tick_reconciliation collabGetFail collabGetFail sampleSysproxy sampleAutoproxy
      0 GuardType.None).2.2.2.1 ProxyError.NotSupport rfl
  · exact (c2_tick_reconciliation collabMatch collabMatch sampleSysproxy sampleAutoproxy
      0 GuardType.None).2.2.1 rfl
  · exact (c2_tick_reconciliation collabMatch collabMatch sampleSysproxy sampleAutoproxy
      0 GuardType.None).2.2.2.2.2.2.1 rfl
  · exact (c2_tick_reconciliation collabGetFail collabGetFail sampleSysproxy sampleAutoproxy
      0 GuardType.None).2.2.2.2.2.2.2.2.2 rfl rfl

/-- C5: the loop re-checks the shared state at the top of every iteration:
an iteration that observes a byte decoding to Stopped or NeedRestart exits
at once — the whole remaining trace is the single final store of Stopped,
with no further collaborator call; and every store the loop ever performs
(the store on loop exit, for any exit reason) writes the Stopped encoding,
so a task that exits because of NeedRestart leaves the byte in the
restartable Stopped encoding without external intervention. -/
theorem c5_loop_exit (gt : GuardType) (o : LoopObs) (rest obs : List LoopObs) (v : Nat) :
    ((GuardState.from_u8 o.stat).is_stopped = true ∨
     (GuardState.from_u8 o.stat).is_need_restart = true →
      loopTrace gt (o :: rest) = [TaskAct.store GuardState.Stopped.to_u8])
    ∧ (TaskAct.store v ∈ loopTrace gt obs → v = GuardState.Stopped.to_u8) := by
  constructor
  · intro h
    have hiter : loopIter gt o = IterResult.exited := by
      rcases h with h | h
      · rw [is_stopped_iff] at h
        simp [loopIter, h, GuardState.is_stopped]
      · rw [is_need_restart_iff] at h
        simp [loopIter, h, GuardState.is_stopped, GuardState.is_need_restart]
    simp [loopTrace, hiter]
  · exact loopTrace_store_mem gt obs v

/-- Witness for C5: an iteration observing byte 2 (NeedRestart) exits with
only the final store of the Stopped encoding, and that store's value is the
Stopped encoding. -/
theorem c5_loop_exit_witness :
    loopTrace GuardType.None
        [{ stat := 2, ev := LoopEvent.tick, collab := collabGetFail }]
      = [TaskAct.store GuardState.Stopped.to_u8]
    ∧ (1 : Nat) = GuardState.Stopped.to_u8 := by
  constructor
  · exact (c5_loop_exit GuardType.None
      { stat := 2, ev := LoopEvent.tick, collab := collabGetFail } [] [] 1).1 (Or.inr rfl)
  · exact (c5_loop_exit GuardType.None
      { stat := 2, ev := LoopEvent.tick, collab := collabGetFail } []
      [{ stat := 2, ev := LoopEvent.tick, collab := collabGetFail }] 1).2 (by decide)

/-- C3 amended: start() called while the decoded state is Running or Pending
changes nothing and spawns nothing; from a byte holding the Stopped encoding
the spawn is gated by the compare-exchange Stopped→Pending, which moves the
byte to Pending and spawns exactly one task; a compare-exchange attempt that
does not find the Stopped encoding (a concurrent caller already won it)
changes nothing and spawns nothing, and of two consecutive compare-exchange
attempts on the same cell at most the first succeeds — at most one task is
spawned per Stopped→Pending transition. (The original claim's stronger
conclusion, that at most one live task ever exists per Watchdog, is refuted
by the reachable two-task state of the counterexample.) -/
theorem c3_start_idempotent_race (m : GuardMonitor) (cur : Nat) :
    ((m.get_state = GuardState.Running ∨ m.get_state = GuardState.Pending) →
      m.start = (m, none))
    ∧ (m.guard_stat = GuardState.Stopped.to_u8 →
        m.start = ({ m with guard_stat := GuardState.Pending.to_u8 },
          some { guard_type := m.guard_type, interval := m.interval }))
    ∧ (cur ≠ GuardState.Stopped.to_u8 →
        compare_exchange cur GuardState.Stopped.to_u8 GuardState.Pending.to_u8
          = (cur, false))
    ∧ ((compare_exchange cur GuardState.Stopped.to_u8 GuardState.Pending.to_u8).2 = true →
        (compare_exchange
            (compare_exchange cur GuardState.Stopped.to_u8 GuardState.Pending.to_u8).1
            GuardState.Stopped.to_u8 GuardState.Pending.to_u8).2 = false) := by
  refine ⟨?_, ?_, ?_, ?_⟩
  · rintro (h | h) <;>
    · have h2 : GuardState.from_u8 m.guard_stat = _ := h
      simp [GuardMonitor.start, GuardMonitor.get_state, h2,
        GuardState.is_running, GuardState.is_pendding]
  · intro h
    have h2 : GuardState.from_u8 m.guard_stat = GuardState.Stopped := by
      rw [h]; rfl
    simp [GuardMonitor.start, GuardMonitor.get_state, h2, h, compare_exchange,
      from_u8_to_u8, GuardState.is_running, GuardState.is_pendding,
      GuardState.is_need_restart]
  · intro h
    simp [compare_exchange, h]
  · intro hsucc
    by_cases hc : cur = GuardState.Stopped.to_u8
    · subst hc
      decide
    · simp [compare_exchange, hc] at hsucc

/-- Witness for C3 (amended): a running monitor is left untouched with no
spawn; a stopped monitor transitions to Pending and spawns the snapshot; a
compare-exchange that finds Pending (a concurrent winner) fails and changes
nothing. -/
theorem c3_start_idempotent_race_witness :
    (GuardMonitor.mk GuardType.None 5 0).start = (GuardMonitor.mk GuardType.None 5 0, none)
    ∧ (GuardMonitor.mk GuardType.None 5 1).start
        = (GuardMonitor.mk GuardType.None 5 3, some (TaskConfig.mk GuardType.None 5))
    ∧ compare_exchange 3 1 3 = (3, false) := by
  refine ⟨?_, ?_, ?_⟩
  · exact (c3_start_idempotent_race (GuardMonitor.mk GuardType.None 5 0) 3).1 (Or.inl rfl)
  · exact (c3_start_idempotent_race (GuardMonitor.mk GuardType.None 5 1) 3).2.1 rfl
  · exact (c3_start_idempotent_race (GuardMonitor.mk GuardType.None 5 0) 3).2.2.1 (by decide)

/-- C3 counterexample: a state with two live background tasks of the same
Watchdog is reachable, refuting "at most one background task ever exists per
Watchdog". The trace is a real interleaving of the source: start() spawns a
task; the task stores Running, enters its select, and its tick fires; while
it is between that tick and its next top-of-loop check, stop() stores
Stopped (the task is not parked in the select, so the notify_waiters wakeup
is lost), a second start() wins the compare-exchange and spawns a second
task, and the second task stores Running — so the first task's next check
sees Running and it keeps looping alongside the second. -/
theorem c3_counterexample :
    Reachable { stat := GuardState.Running.to_u8, nInit := 0, nLoop := 2, nSel := 0 }
    ∧ ¬ Sys.live { stat := GuardState.Running.to_u8, nInit := 0, nLoop := 2, nSel := 0 } ≤ 1 := by
  constructor
  · have h1 : Reachable sysInit := Reachable.init
    have h2 : Reachable { stat := 3, nInit := 1, nLoop := 0, nSel := 0 } :=
      h1.step (Step.casOk _ (by decide))
    have h3 : Reachable { stat := 0, nInit := 0, nLoop := 1, nSel := 0 } :=
      h2.step (Step.taskRun _ (by decide))
    have h4 : Reachable { stat := 0, nInit := 0, nLoop := 0, nSel := 1 } :=
      h3.step (Step.taskEnterSel _ (by decide) (by decide))
    have h5 : Reachable { stat := 0, nInit := 0, nLoop := 1, nSel := 0 } :=
      h4.step (Step.taskTick _ (by decide))
    have h6 : Reachable { stat := 1, nInit := 0, nLoop := 1, nSel := 0 } :=
      h5.step (Step.stopStore _ (by decide))
    have h7 : Reachable { stat := 3, nInit := 1, nLoop := 1, nSel := 0 } :=
      h6.step (Step.casOk _ (by decide))
    exact h7.step (Step.taskRun _ (by decide))
  · decide

/-- C7: a successful start() hands the spawned task a snapshot equal to the
monitor's configuration and interval at call time; the spawned task's first
action is the store of Running (the Pending→Running transition), before its
first loop iteration and before any collaborator call; and every corrective
set call the task ever makes carries the captured snapshot configuration —
the snapshot is an owned copy fixed at capture, so later mutation of the
monitor's fields never alters what the running task enforces. -/
theorem c7_snapshot (m : GuardMonitor) (cfg : TaskConfig) (obs : List LoopObs)
    (p : Sysproxy) (a : Autoproxy) :
    ((m.start).2 = some cfg →
      cfg.guard_type = m.guard_type ∧ cfg.interval = m.interval)
    ∧ (run_monitor_loop cfg obs).head? = some (TaskAct.store GuardState.Running.to_u8)
    ∧ (TaskAct.call (CollabCall.set_system_proxy p) ∈ run_monitor_loop cfg obs →
        cfg.guard_type = GuardType.Sysproxy p)
    ∧ (TaskAct.call (CollabCall.set_auto_proxy a) ∈ run_monitor_loop cfg obs →
        cfg.guard_type = GuardType.Autoproxy a) := by
  refine ⟨?_, rfl, ?_, ?_⟩
  · intro h
    by_cases hrp : (m.get_state.is_running || m.get_state.is_pendding) = true
    · simp [GuardMonitor.start, hrp] at h
    · by_cases hnr : m.get_state.is_need_restart = true
      · by_cases hcas : (m.stop).1.guard_stat = GuardState.Stopped.to_u8
        · simp [GuardMonitor.start, hrp, hnr, hcas, compare_exchange] at h
          subst h
          exact ⟨(stop_preserves_fields m).1, (stop_preserves_fields m).2⟩
        · simp [GuardMonitor.start, hrp, hnr, hcas, compare_exchange] at h
      · by_cases hcas : m.guard_stat = GuardState.Stopped.to_u8
        · simp [GuardMonitor.start, hrp, hnr, hcas, compare_exchange] at h
          subst h
          exact ⟨rfl, rfl⟩
        · simp [GuardMonitor.start, hrp, hnr, hcas, compare_exchange] at h
  · intro h
    simp only [run_monitor_loop, List.mem_cons] at h
    rcases h with h1 | h1
    · cases h1
    · exact loopTrace_set_sys cfg.guard_type obs p h1
  · intro h
    simp only [run_monitor_loop, List.mem_cons] at h
    rcases h with h1 | h1
    · cases h1
    · exact loopTrace_set_auto cfg.guard_type obs a h1

/-- Witness for C7: a stopped monitor with the sample manual target spawns
exactly the snapshot of its fields; the spawned task's trace starts with the
store of Running; and on a drifting tick the corrective set call carries the
captured configuration. -/
theorem c7_snapshot_witness :
    ((GuardMonitor.mk (GuardType.Sysproxy sampleSysproxy) 7 1).start).2
        = some (TaskConfig.mk (GuardType.Sysproxy sampleSysproxy) 7)
    ∧ (TaskConfig.mk (GuardType.Sysproxy sampleSysproxy) 7).guard_type
        = (GuardMonitor.mk (GuardType.Sysproxy sampleSysproxy) 7 1).guard_type
    ∧ (run_monitor_loop (TaskConfig.mk (GuardType.Sysproxy sampleSysproxy) 7)
        [{ stat := 0, ev := LoopEvent.tick, collab := collabDrift }]).head?
        = some (TaskAct.store GuardState.Running.to_u8)
    ∧ (TaskConfig.mk (GuardType.Sysproxy sampleSysproxy) 7).guard_type
        = GuardType.Sysproxy sampleSysproxy := by
  refine ⟨by decide, ?_, ?_, ?_⟩
  · exact ((c7_snapshot (GuardMonitor.mk (GuardType.Sysproxy sampleSysproxy) 7 1)
      (TaskConfig.mk (GuardType.Sysproxy sampleSysproxy) 7) [] sampleSysproxy
      sampleAutoproxy).1 (by decide)).1
  · exact (c7_snapshot (GuardMonitor.mk (GuardType.Sysproxy sampleSysproxy) 7 1)
      (TaskConfig.mk (GuardType.Sysproxy sampleSysproxy) 7)
      [{ stat := 0, ev := LoopEvent.tick, collab := collabDrift }] sampleSysproxy
      sampleAutoproxy).2.1
  · exact (c7_snapshot (GuardMonitor.mk (GuardType.Sysproxy sampleSysproxy) 7 1)
      (TaskConfig.mk (GuardType.Sysproxy sampleSysproxy) 7)
      [{ stat := 0, ev := LoopEvent.tick, collab := collabDrift }] sampleSysproxy
      sampleAutoproxy).2.2.1 (by decide)

/-- C8 amended: dropping a GuardMonitor always runs the stop protocol
(Drop::drop calls self.stop()). When dropped while the decoded state is
Running or NeedRestart, the state is set to Stopped and the cancellation
signal is raised, and a task that next observes the stored byte exits
immediately with its final store of Stopped. When dropped while Stopped or
Pending, however, the drop changes nothing and raises no signal — in
particular a task spawned by a start() whose state is still Pending is not
signalled and outlives the dropped Watchdog (see the counterexample). -/
theorem c8_drop_stops (m : GuardMonitor) (gt : GuardType) (ev : LoopEvent)
    (c : CollabResponses) (rest : List LoopObs) :
    GuardMonitor.dropGuard m = m.stop
    ∧ ((m.get_state = GuardState.Running ∨ m.get_state = GuardState.NeedRestart) →
        (GuardMonitor.dropGuard m).1.get_state = GuardState.Stopped
        ∧ (GuardMonitor.dropGuard m).2 = true
        ∧ loopTrace gt
            ({ stat := (GuardMonitor.dropGuard m).1.guard_stat, ev := ev, collab := c }
              :: rest)
            = [TaskAct.store GuardState.Stopped.to_u8])
    ∧ ((m.get_state = GuardState.Stopped ∨ m.get_state = GuardState.Pending) →
        GuardMonitor.dropGuard m = (m, false)) := by
  refine ⟨rfl, ?_, ?_⟩
  · rintro (h | h) <;>
    · have h2 : GuardState.from_u8 m.guard_stat = _ := h
      refine ⟨?_, ?_, ?_⟩ <;>
        simp [GuardMonitor.dropGuard, GuardMonitor.stop, GuardMonitor.set_state,
          GuardMonitor.get_state, h2, GuardState.is_stopped, GuardState.is_pendding,
          GuardState.is_need_restart, from_u8_to_u8, loopTrace, loopIter]
  · rintro (h | h) <;>
    · have h2 : GuardState.from_u8 m.guard_stat = _ := h
      simp [GuardMonitor.dropGuard, GuardMonitor.stop, GuardMonitor.get_state, h2,
        GuardState.is_stopped, GuardState.is_pendding]

/-- Witness for C8 (amended): dropping a running monitor stops and signals
it; dropping an already stopped monitor changes nothing. -/
theorem c8_drop_stops_witness :
    (GuardMonitor.dropGuard (GuardMonitor.mk GuardType.None 5 0)).1.get_state
        = GuardState.Stopped
    ∧ (GuardMonitor.dropGuard (GuardMonitor.mk GuardType.None 5 0)).2 = true
    ∧ GuardMonitor.dropGuard (GuardMonitor.mk GuardType.None 5 1)
        = (GuardMonitor.mk GuardType.None 5 1, false) := by
  refine ⟨?_, ?_, ?_⟩
  · exact ((c8_drop_stops (GuardMonitor.mk GuardType.None 5 0) GuardType.None
      LoopEvent.tick collabGetFail []).2.1 (Or.inl rfl)).1
  · exact ((c8_drop_stops (GuardMonitor.mk GuardType.None 5 0) GuardType.None
      LoopEvent.tick collabGetFail []).2.1 (Or.inl rfl)).2.1
  · exact (c8_drop_stops (GuardMonitor.mk GuardType.None 5 1) GuardType.None
      LoopEvent.tick collabGetFail []).2.2 (Or.inl rfl)

/-- C8 counterexample: the Pending state with one live spawned task is
reachable (a start() just won the compare-exchange and spawned the task,
which has not yet stored Running); dropping the Watchdog there runs stop(),
which returns early — nothing changes and no cancellation signal is raised,
so the task is not signalled to exit. The remaining conjuncts show the
orphaned task then proceeds on its own: it stores Running, and a loop
iteration in that state continues rather than exiting. -/
theorem c8_counterexample :
    Reachable { stat := GuardState.Pending.to_u8, nInit := 1, nLoop := 0, nSel := 0 }
    ∧ GuardMonitor.dropGuard (GuardMonitor.mk GuardType.None 100 GuardState.Pending.to_u8)
        = (GuardMonitor.mk GuardType.None 100 GuardState.Pending.to_u8, false)
    ∧ Step { stat := GuardState.Pending.to_u8, nInit := 1, nLoop := 0, nSel := 0 }
        { stat := GuardState.Running.to_u8, nInit := 0, nLoop := 1, nSel := 0 }
    ∧ loopIter GuardType.None
        { stat := GuardState.Running.to_u8, ev := LoopEvent.tick, collab := collabGetFail }
        = IterResult.continued [] := by
  refine ⟨Reachable.init.step (Step.casOk _ (by decide)), by decide,
    Step.taskRun _ (by decide), rfl⟩

end SysproxyGuard
